import Mathlib

/-!
Shallow embedding of the Onlybees ticket-booking backend.

Source files embedded here:
  - src/models/Event.js        (sectionSchema, eventSchema, mongoose validation)
  - src/models/Booking.js      (bookingSchema: eventId, sectionId, qty >= 1, timestamps)
  - src/services/bookingService.js   (bookTicket, getAllBookings)
  - src/controllers/bookingController.js (createBooking, listBookings)
  - src/controllers/eventController.js   (createEvent)

MongoDB semantics used by bookTicket. The query
  \x7b _id: eventId, sections._id: sectionId, sections.remaining: \x7b $gte: qty \x7d \x7d
matches a document when EACH condition is satisfied by SOME element of the
sections array, evaluated independently: the conditions are not wrapped in
$elemMatch, so the element carrying the matching _id and the element whose
remaining is at least qty need not be the same. The positional update
  $inc: \x7b sections.$.remaining: -qty \x7d
resolves the $ placeholder to the array index recorded by the query matcher;
with several top-level dot-notation conditions on the same array this is the
index of the first element satisfying the final array-field condition of the
query document, here sections.remaining >= qty. This is the documented
MongoDB pitfall that $elemMatch exists to avoid.
-/

namespace Onlybees

/-- One embedded section document of an event (sectionSchema in Event.js).
Mongo assigns each embedded document an _id; we model it as a Nat. -/
structure EventSection where
  sid : Nat
  sname : String
  price : Int
  capacity : Int
  remaining : Int
deriving Repr, DecidableEq

/-- An event document (eventSchema in Event.js). -/
structure Event where
  eid : Nat
  ename : String
  sections : List EventSection
deriving Repr, DecidableEq

/-- A booking document (bookingSchema in Booking.js); createdAt comes from the
timestamps option. -/
structure Booking where
  eventId : Nat
  sectionId : Nat
  qty : Int
  createdAt : Nat
deriving Repr, DecidableEq

/-- The database: the events collection, the bookings collection, and a logical
clock supplying createdAt timestamps. -/
structure DB where
  events : List Event
  bookings : List Booking
  clock : Nat
deriving Repr, DecidableEq

/-- Does the query document of bookTicket match event e? Each array condition
is satisfied by some element of e.sections, independently of the others. -/
def eventQueryMatches (e : Event) (eventId sectionId : Nat) (qty : Int) : Bool :=
  e.eid == eventId
    && e.sections.any (fun s => s.sid == sectionId)
    && e.sections.any (fun s => qty ≤ s.remaining)

/-- Apply the positional update $inc sections.$.remaining by -qty: the $
placeholder resolves to the first element satisfying the last array-field
condition of the query, sections.remaining >= qty. -/
def decFirstMatch (qty : Int) : List EventSection → List EventSection
  | [] => []
  | s :: rest =>
    if qty ≤ s.remaining then { s with remaining := s.remaining - qty } :: rest
    else s :: decFirstMatch qty rest

/-- Event.findOneAndUpdate with the bookTicket query and update, option
new: true. Returns the updated events collection together with the updated
document, or none when no document matches. -/
def findOneAndUpdate (events : List Event) (eventId sectionId : Nat) (qty : Int) :
    Option (List Event × Event) :=
  match events with
  | [] => none
  | e :: rest =>
    if eventQueryMatches e eventId sectionId qty then
      let upd : Event := { e with sections := decFirstMatch qty e.sections }
      some (upd :: rest, upd)
    else
      match findOneAndUpdate rest eventId sectionId qty with
      | none => none
      | some (rest2, doc) => some (e :: rest2, doc)

/-- Outcome of one bookTicket call: the value returned or the error thrown,
the database afterwards, and how many times booking.save was attempted. -/
structure BookResult where
  result : Except String Booking
  db : DB
  saveAttempts : Nat
deriving Repr

/-- bookTicket of bookingService.js. saveOutcomes models the storage
environment: attempt i of booking.save succeeds iff saveOutcomes i is true.
The code performs the conditional update; when no document matched it throws
the string below; otherwise it constructs a Booking and calls save once.
Mongoose validates qty >= 1 (bookingSchema min: 1) before writing, so a save
with qty < 1 throws a validation error regardless of the storage outcome. -/
def bookTicket (db : DB) (saveOutcomes : Nat → Bool) (eventId sectionId : Nat)
    (qty : Int) : BookResult :=
  match findOneAndUpdate db.events eventId sectionId qty with
  | none =>
      { result := Except.error "Not enough seats available"
        db := db
        saveAttempts := 0 }
  | some (events2, _) =>
      let booking : Booking :=
        { eventId := eventId, sectionId := sectionId, qty := qty, createdAt := db.clock }
      if qty < 1 then
        { result := Except.error "ValidationError"
          db := { db with events := events2 }
          saveAttempts := 1 }
      else if saveOutcomes 0 then
        { result := Except.ok booking
          db := { events := events2, bookings := booking :: db.bookings, clock := db.clock + 1 }
          saveAttempts := 1 }
      else
        { result := Except.error "StorageFailure"
          db := { db with events := events2 }
          saveAttempts := 1 }

/-- Relation ordering bookings newest creation time first, as produced by
sort on createdAt: -1. -/
def newestFirst (a b : Booking) : Prop := b.createdAt ≤ a.createdAt

instance : DecidableRel newestFirst := fun a b =>
  inferInstanceAs (Decidable (b.createdAt ≤ a.createdAt))

instance : IsTotal Booking newestFirst :=
  ⟨fun a b => le_total b.createdAt a.createdAt⟩

instance : IsTrans Booking newestFirst :=
  ⟨fun _ _ _ hab hbc => le_trans hbc hab⟩

/-- getAllBookings of bookingService.js: Booking.find().sort on
createdAt: -1 returns every stored booking, newest first. -/
def getAllBookings (db : DB) : List Booking :=
  List.insertionSort newestFirst db.bookings

/-- Body of a POST /book request. none models a missing field; in the
JavaScript truthiness check a qty of 0 is also falsy. -/
structure BookingRequest where
  eventId : Option Nat
  sectionId : Option Nat
  qty : Option Int
deriving Repr, DecidableEq

/-- HTTP response of the booking controller. -/
inductive BookingResponse where
  | success (status : Nat) (booking : Booking)
  | failure (status : Nat) (error : String)
deriving Repr, DecidableEq

/-- The HTTP status code of a booking response. -/
def BookingResponse.statusOf : BookingResponse → Nat
  | .success st _ => st
  | .failure st _ => st

/-- createBooking of bookingController.js. Returns the response, the
database afterwards, and whether bookingService.bookTicket was invoked.
The first guard tests JavaScript falsiness of eventId, sectionId and qty,
so qty = 0 takes the missing-fields branch; the second guard rejects
qty < 1. On an error whose message is one of the two recognised strings the
controller answers 400 with that message, otherwise 500. -/
def createBooking (db : DB) (saveOutcomes : Nat → Bool) (req : BookingRequest) :
    BookingResponse × DB × Bool :=
  match req.eventId, req.sectionId, req.qty with
  | some e, some s, some q =>
    if q == 0 then
      (.failure 400 "Missing required fields: eventId, sectionId, qty", db, false)
    else if q < 1 then
      (.failure 400 "Quantity must be at least 1", db, false)
    else
      let r := bookTicket db saveOutcomes e s q
      match r.result with
      | .ok b => (.success 201 b, r.db, true)
      | .error m =>
        if m == "Not enough seats available" || m == "Event or Section not found" then
          (.failure 400 m, r.db, true)
        else
          (.failure 500 "Internal Server Error", r.db, true)
  | _, _, _ =>
      (.failure 400 "Missing required fields: eventId, sectionId, qty", db, false)

/-- One section object of a POST /events/create request body. remaining is
optional; price and capacity are taken as present numbers. -/
structure SectionRequest where
  sname : String
  price : Int
  capacity : Int
  remaining : Option Int
deriving Repr, DecidableEq

/-- Body of a POST /events/create request. -/
structure EventRequest where
  ename : Option String
  sections : Option (List SectionRequest)
deriving Repr, DecidableEq

/-- HTTP response of the event controller. -/
inductive EventResponse where
  | created (status : Nat) (e : Event)
  | rejected (status : Nat) (error : String)
deriving Repr, DecidableEq

/-- The HTTP status code of an event response. -/
def EventResponse.statusOf : EventResponse → Nat
  | .created st _ => st
  | .rejected st _ => st

/-- The sections map of createEvent: each request section becomes an embedded
document whose remaining is the supplied remaining when it is not undefined
and the capacity otherwise; Mongo assigns the embedded _id values, modelled
here as consecutive indices. -/
def mkSections (i : Nat) : List SectionRequest → List EventSection
  | [] => []
  | s :: rest =>
      { sid := i, sname := s.sname, price := s.price, capacity := s.capacity
        remaining := s.remaining.getD s.capacity } :: mkSections (i + 1) rest

/-- Mongoose validation of one embedded section document (sectionSchema):
name is required (an empty string fails a required String), capacity is
required with min 1, remaining is required but otherwise unconstrained. -/
def validSectionDoc (s : EventSection) : Bool :=
  s.sname != "" && 1 ≤ s.capacity

/-- Mongoose validation of an event document on save (eventSchema). -/
def validEventDoc (e : Event) : Bool :=
  e.ename != "" && e.sections.all validSectionDoc

/-- createEvent of eventController.js. The controller rejects a falsy name,
a missing sections field and an empty sections array with a 400; it then
builds the document and calls save, whose mongoose validation failure is
caught by the generic handler and answered with status 500. -/
def createEvent (db : DB) (req : EventRequest) : EventResponse × DB :=
  match req.ename, req.sections with
  | some name, some secs =>
    if name == "" || secs.isEmpty then
      (.rejected 400 "Name and at least one section are required", db)
    else
      let e : Event := { eid := db.events.length, ename := name
                         sections := mkSections 0 secs }
      if validEventDoc e then
        (.created 201 e, { db with events := db.events ++ [e] })
      else
        (.rejected 500 "ValidationError", db)
  | _, _ =>
      (.rejected 400 "Name and at least one section are required", db)

/-- The states reachable from the empty database by any finite sequence of
CreateEvent and Allocate requests, under any storage behaviour. -/
inductive Reachable : DB → Prop where
  | init : Reachable { events := [], bookings := [], clock := 0 }
  | stepCreateEvent (db : DB) (req : EventRequest) :
      Reachable db → Reachable (createEvent db req).2
  | stepAllocate (db : DB) (saveOutcomes : Nat → Bool) (req : BookingRequest) :
      Reachable db → Reachable (createBooking db saveOutcomes req).2.1

/-- Total quantity over the stored bookings referencing a given event and
section, the right-hand side of the conservation invariant. -/
def bookedQty (bs : List Booking) (eventId sectionId : Nat) : Int :=
  bs.foldr
    (fun b acc => if b.eventId == eventId && b.sectionId == sectionId then b.qty + acc else acc)
    0

/-- Look up the section with a given _id inside a given event of the
database, for stating claims about individual counters. -/
def sectionLookup (db : DB) (eventId sectionId : Nat) : Option EventSection :=
  match db.events.find? (fun e => e.eid == eventId) with
  | none => none
  | some e => e.sections.find? (fun s => s.sid == sectionId)

/-- Mongoose validation of one request section after the controller map: the
document validates exactly when the request has a nonempty name and a
capacity of at least 1; the remaining value is never constrained. -/
def validSectionReq (s : SectionRequest) : Bool :=
  s.sname != "" && 1 ≤ s.capacity

/-- The empty database. -/
def db0 : DB := ⟨[], [], 0⟩

/-- A storage environment in which every save attempt succeeds. -/
def allOk : Nat → Bool := fun _ => true

/-- A storage environment in which the first save attempt fails and every
later attempt would succeed. -/
def failThenOk : Nat → Bool := fun n => n != 0

/-- Fixture: one event with two sections; the target section 0 is sold out
while section 1 still has 10 seats. -/
def dbC1 : DB := ⟨[⟨0, "E", [⟨0, "A", 10, 5, 0⟩, ⟨1, "B", 20, 10, 10⟩]⟩], [], 0⟩

/-- Fixture: one event with a single section of capacity 10 and remaining 5. -/
def dbC5 : DB := ⟨[⟨0, "E", [⟨0, "S", 10, 10, 5⟩]⟩], [], 0⟩

/-- CreateEvent request with two sections of capacity 1 each. -/
def reqTwo : EventRequest := ⟨some "E", some [⟨"A", 1, 1, none⟩, ⟨"B", 1, 1, none⟩]⟩

/-- Allocate request naming event 0, section 0, qty 1. -/
def breqA : BookingRequest := ⟨some 0, some 0, some 1⟩

/-- The database after creating the two-section event. -/
def dbTwo : DB := (createEvent db0 reqTwo).2

/-- First allocation of one seat of section 0 of the two-section event. -/
def runA := createBooking dbTwo allOk breqA

/-- Second allocation of one seat of section 0, after the first. -/
def runB := createBooking runA.2.1 allOk breqA

/-- The remaining values stored by mkSections: the supplied remaining when
present, the capacity otherwise. -/
theorem mkSections_remaining_map (i : Nat) (secs : List SectionRequest) :
    (mkSections i secs).map (fun t => t.remaining)
      = secs.map (fun s => s.remaining.getD s.capacity) := by
  induction secs generalizing i with
  | nil => rfl
  | cons s rest ih => simp [mkSections, ih]

/-- Mongoose validation of the mapped sections agrees with validity of the
request sections. -/
theorem mkSections_all_valid (i : Nat) (secs : List SectionRequest) :
    (mkSections i secs).all validSectionDoc = secs.all validSectionReq := by
  induction secs generalizing i with
  | nil => rfl
  | cons s rest ih =>
      simp only [mkSections, List.all_cons, ih]
      rfl

/-- Shape of a successful createEvent call. -/
theorem createEvent_success_shape (db : DB) (name : String)
    (secs : List SectionRequest) (hn : name ≠ "") (hne : secs ≠ [])
    (hv : secs.all validSectionReq = true) :
    (createEvent db ⟨some name, some secs⟩).1
      = EventResponse.created 201 ⟨db.events.length, name, mkSections 0 secs⟩ := by
  have hbeq : (name == "") = false := by
    simp [hn]
  have hempty : secs.isEmpty = false := by
    cases secs with
    | nil => exact absurd rfl hne
    | cons a l => rfl
  have hvalid : validEventDoc ⟨db.events.length, name, mkSections 0 secs⟩ = true := by
    simp [validEventDoc, hbeq, mkSections_all_valid, hv, hn]
  simp [createEvent, hbeq, hempty, hvalid]

/-- C1: the claim says a bookTicket call succeeds only when the section named
by sectionId itself has remaining at least qty, and that on success exactly
that section is decremented. The code evaluates the two array conditions of
the query against different elements: on dbC1, booking 3 seats of section 0,
whose remaining is 0, nevertheless succeeds, leaves section 0 untouched and
decrements section 1 from 10 to 7. -/
theorem bookTicket_wrong_section_eval :
    (bookTicket dbC1 allOk 0 0 3).result = Except.ok ⟨0, 0, 3, 0⟩ ∧
    sectionLookup dbC1 0 0 = some ⟨0, "A", 10, 5, 0⟩ ∧
    sectionLookup (bookTicket dbC1 allOk 0 0 3).db 0 0 = some ⟨0, "A", 10, 5, 0⟩ ∧
    sectionLookup (bookTicket dbC1 allOk 0 0 3).db 0 1 = some ⟨1, "B", 20, 10, 7⟩ :=
  ⟨rfl, rfl, rfl, rfl⟩

/-- C2: the claim says the total qty of successful Allocate calls against one
section never exceeds its capacity. Against the two-section event created
with capacity 1 per section, two successive Allocate calls for section 0
with qty 1 both answer 201, so the successful total against section 0 is 2
while its capacity is 1. -/
theorem oversell_eval :
    sectionLookup dbTwo 0 0 = some ⟨0, "A", 1, 1, 1⟩ ∧
    runA.1 = BookingResponse.success 201 ⟨0, 0, 1, 0⟩ ∧
    runB.1 = BookingResponse.success 201 ⟨0, 0, 1, 1⟩ ∧
    bookedQty runB.2.1.bookings 0 0 = 2 :=
  ⟨rfl, rfl, rfl, rfl⟩

/-- C3: a bookTicket call on which the conditional update does not apply
throws the no-seats error, leaves the entire database unchanged and never
attempts to save a Booking. -/
theorem bookTicket_fail_atomic (db : DB) (saveOutcomes : Nat → Bool)
    (e s : Nat) (q : Int) (h : findOneAndUpdate db.events e s q = none) :
    (bookTicket db saveOutcomes e s q).result
        = Except.error "Not enough seats available" ∧
    (bookTicket db saveOutcomes e s q).db = db ∧
    (bookTicket db saveOutcomes e s q).saveAttempts = 0 := by
  simp [bookTicket, h]

/-- Witness for C3 at a concrete input: an unknown sectionId on dbC5. -/
theorem bookTicket_fail_atomic_witness :
    (bookTicket dbC5 allOk 0 99 1).result
        = Except.error "Not enough seats available" ∧
    (bookTicket dbC5 allOk 0 99 1).db = dbC5 ∧
    (bookTicket dbC5 allOk 0 99 1).saveAttempts = 0 :=
  bookTicket_fail_atomic dbC5 allOk 0 99 1 rfl

/-- C4: the claim says capacity minus remaining equals the booked total of
every section at every reachable state. The state reached by creating the
two-section event and allocating section 0 twice violates the equation. -/
theorem conservation_violated :
    ∃ db : DB, Reachable db ∧ ∃ e ∈ db.events, ∃ s ∈ e.sections,
      s.capacity - s.remaining ≠ bookedQty db.bookings e.eid s.sid := by
  refine ⟨runB.2.1, ?_, ?_⟩
  · exact Reachable.stepAllocate _ allOk breqA
      (Reachable.stepAllocate _ allOk breqA
        (Reachable.stepCreateEvent _ reqTwo Reachable.init))
  · decide

/-- C5: the claim says an unknown event or section yields a NotFound outcome
distinguishable from InsufficientCapacity. The code throws the identical
string for an unknown sectionId, an unknown eventId and an insufficient
remaining, and the controller answers the same 400 response in each case. -/
theorem notfound_indistinguishable_eval :
    (bookTicket dbC5 allOk 0 99 1).result
        = Except.error "Not enough seats available" ∧
    (bookTicket dbC5 allOk 42 0 1).result
        = Except.error "Not enough seats available" ∧
    (bookTicket dbC5 allOk 0 0 99).result
        = Except.error "Not enough seats available" ∧
    (createBooking dbC5 allOk ⟨some 0, some 99, some 1⟩).1
        = (createBooking dbC5 allOk ⟨some 0, some 0, some 99⟩).1 :=
  ⟨rfl, rfl, rfl, rfl⟩

/-- Counterexample to C6 as stated: a successful CreateEvent whose section
supplied remaining 5 stores 5, not the capacity 2; and a request with
capacity 0 is rejected with a 500 validation error, not a 400 InvalidInput. -/
theorem createEvent_claim_counterexample :
    ((createEvent db0 ⟨some "E", some [⟨"A", 10, 2, some 5⟩]⟩).1
        = EventResponse.created 201 ⟨0, "E", [⟨0, "A", 10, 2, 5⟩]⟩ ∧ (5 : Int) ≠ 2) ∧
    (createEvent db0 ⟨some "E", some [⟨"A", 10, 0, none⟩]⟩).1
        = EventResponse.rejected 500 "ValidationError" :=
  ⟨⟨rfl, by decide⟩, rfl⟩

/-- C6 amended: on success each created section stores the supplied remaining
when present and its capacity otherwise; an empty section list is rejected
with a 400; a non-positive capacity fails mongoose validation and is
surfaced as a 500 error rather than a 400 InvalidInput. -/
theorem createEvent_amended :
    (∀ (db : DB) (name : String) (secs : List SectionRequest),
        name ≠ "" → secs ≠ [] → secs.all validSectionReq = true →
        ∃ e, (createEvent db ⟨some name, some secs⟩).1 = EventResponse.created 201 e ∧
          e.sections.map (fun t => t.remaining)
            = secs.map (fun s => s.remaining.getD s.capacity)) ∧
    (∀ (db : DB) (name : Option String),
        (createEvent db ⟨name, some []⟩).1
          = EventResponse.rejected 400 "Name and at least one section are required") ∧
    (∀ (db : DB) (name : String) (secs : List SectionRequest),
        name ≠ "" → secs ≠ [] → secs.all validSectionReq = false →
        (createEvent db ⟨some name, some secs⟩).1
          = EventResponse.rejected 500 "ValidationError") := by
  refine ⟨?_, ?_, ?_⟩
  · intro db name secs hn hne hv
    exact ⟨_, createEvent_success_shape db name secs hn hne hv,
      mkSections_remaining_map 0 secs⟩
  · intro db name
    cases name with
    | none => rfl
    | some n =>
        simp only [createEvent, List.isEmpty_nil, Bool.or_true, if_pos]
  · intro db name secs hn hne hv
    have hbeq : (name == "") = false := by simp [hn]
    have hempty : secs.isEmpty = false := by
      cases secs with
      | nil => exact absurd rfl hne
      | cons a l => rfl
    have hvalid : validEventDoc ⟨db.events.length, name, mkSections 0 secs⟩ = false := by
      simp [validEventDoc, mkSections_all_valid, hv]
    simp [createEvent, hbeq, hempty, hvalid]

/-- Witness for C6 amended at concrete inputs: a valid one-section request,
an empty section list, and a capacity-0 section. -/
theorem createEvent_amended_witness :
    (∃ e, (createEvent db0 ⟨some "E", some [⟨"A", 10, 3, none⟩]⟩).1
        = EventResponse.created 201 e ∧
      e.sections.map (fun t => t.remaining)
        = ([⟨"A", 10, 3, none⟩] : List SectionRequest).map
            (fun s => s.remaining.getD s.capacity)) ∧
    (createEvent db0 ⟨some "E", some []⟩).1
        = EventResponse.rejected 400 "Name and at least one section are required" ∧
    (createEvent db0 ⟨some "E", some [⟨"A", 10, 0, none⟩]⟩).1
        = EventResponse.rejected 500 "ValidationError" :=
  ⟨createEvent_amended.1 db0 "E" [⟨"A", 10, 3, none⟩]
      (by decide) (by decide) (by decide),
   createEvent_amended.2.1 db0 (some "E"),
   createEvent_amended.2.2 db0 "E" [⟨"A", 10, 0, none⟩]
      (by decide) (by decide) (by decide)⟩

/-- Counterexample to C7 as stated: on dbC5 with a storage environment whose
first save attempt fails and whose second attempt would succeed, bookTicket
makes exactly one attempt and surfaces the failure, so no retry of the
append is ever performed; the decrement stays applied and no Booking is
stored. -/
theorem no_retry_counterexample :
    failThenOk 1 = true ∧
    (bookTicket dbC5 failThenOk 0 0 2).saveAttempts = 1 ∧
    (bookTicket dbC5 failThenOk 0 0 2).result = Except.error "StorageFailure" ∧
    sectionLookup (bookTicket dbC5 failThenOk 0 0 2).db 0 0
        = some ⟨0, "S", 10, 10, 3⟩ ∧
    (bookTicket dbC5 failThenOk 0 0 2).db.bookings = [] :=
  ⟨rfl, rfl, rfl, rfl, rfl⟩

/-- C7 amended: when the decrement applies and the single booking.save
attempt fails, bookTicket surfaces the storage error without retrying, while
the decremented events collection is kept and no Booking is stored. -/
theorem bookTicket_no_retry (db : DB) (saveOutcomes : Nat → Bool)
    (e s : Nat) (q : Int) (evs : List Event) (doc : Event)
    (hm : findOneAndUpdate db.events e s q = some (evs, doc))
    (hq : 1 ≤ q) (hfail : saveOutcomes 0 = false) :
    (bookTicket db saveOutcomes e s q).result = Except.error "StorageFailure" ∧
    (bookTicket db saveOutcomes e s q).db = { db with events := evs } ∧
    (bookTicket db saveOutcomes e s q).saveAttempts = 1 := by
  have hq2 : ¬ q < 1 := not_lt.mpr hq
  simp [bookTicket, hm, hq2, hfail]

/-- Witness for C7 amended at a concrete input: dbC5 with the first save
attempt failing. -/
theorem bookTicket_no_retry_witness :
    (bookTicket dbC5 failThenOk 0 0 2).result = Except.error "StorageFailure" ∧
    (bookTicket dbC5 failThenOk 0 0 2).db
        = ⟨[⟨0, "E", [⟨0, "S", 10, 10, 3⟩]⟩], [], 0⟩ ∧
    (bookTicket dbC5 failThenOk 0 0 2).saveAttempts = 1 :=
  bookTicket_no_retry dbC5 failThenOk 0 0 2
    [⟨0, "E", [⟨0, "S", 10, 10, 3⟩]⟩] ⟨0, "E", [⟨0, "S", 10, 10, 3⟩]⟩
    rfl (by decide) rfl

/-- C8: a POST /book request whose qty is zero or negative is answered with a
400 before the service is invoked: the store is never contacted and the
database is unchanged. -/
theorem createBooking_rejects_nonpositive (db : DB) (saveOutcomes : Nat → Bool)
    (req : BookingRequest) (q : Int) (hq : req.qty = some q) (h : q ≤ 0) :
    (createBooking db saveOutcomes req).1.statusOf = 400 ∧
    (createBooking db saveOutcomes req).2.1 = db ∧
    (createBooking db saveOutcomes req).2.2 = false := by
  rcases req with ⟨oe, os, oq⟩
  simp only [BookingRequest.qty] at hq
  subst hq
  by_cases h0 : q = 0
  · cases oe <;> cases os <;>
      simp [createBooking, BookingResponse.statusOf, h0]
  · have h1 : q < 1 := by omega
    have h2 : (q == 0) = false := by simp [h0]
    cases oe <;> cases os <;>
      simp [createBooking, BookingResponse.statusOf, h1, h2]

/-- Witness for C8 at concrete inputs: qty 0 and qty -2 against dbC5. -/
theorem createBooking_rejects_nonpositive_witness :
    ((createBooking dbC5 allOk ⟨some 0, some 0, some 0⟩).1.statusOf = 400 ∧
      (createBooking dbC5 allOk ⟨some 0, some 0, some 0⟩).2.1 = dbC5 ∧
      (createBooking dbC5 allOk ⟨some 0, some 0, some 0⟩).2.2 = false) ∧
    ((createBooking dbC5 allOk ⟨some 0, some 0, some (-2)⟩).1.statusOf = 400 ∧
      (createBooking dbC5 allOk ⟨some 0, some 0, some (-2)⟩).2.1 = dbC5 ∧
      (createBooking dbC5 allOk ⟨some 0, some 0, some (-2)⟩).2.2 = false) :=
  ⟨createBooking_rejects_nonpositive dbC5 allOk ⟨some 0, some 0, some 0⟩ 0
      rfl (by decide),
   createBooking_rejects_nonpositive dbC5 allOk ⟨some 0, some 0, some (-2)⟩ (-2)
      rfl (by decide)⟩

/-- C9: getAllBookings returns every stored Booking, ordered newest creation
time first. -/
theorem getAllBookings_sorted_desc (db : DB) :
    (getAllBookings db).Perm db.bookings ∧
    (getAllBookings db).Sorted newestFirst :=
  ⟨List.perm_insertionSort newestFirst db.bookings,
   List.sorted_insertionSort newestFirst db.bookings⟩

/-- C10: a successful createEvent stores, for each request section, the
supplied remaining when the field is present, without any range check
against the capacity, and falls back to the capacity only when the field is
omitted. -/
theorem createEvent_remaining_passthrough (db : DB) (name : String)
    (secs : List SectionRequest) (hn : name ≠ "") (hne : secs ≠ [])
    (hv : secs.all validSectionReq = true) :
    ∃ e, (createEvent db ⟨some name, some secs⟩).1 = EventResponse.created 201 e ∧
      e.sections.map (fun t => t.remaining)
        = secs.map (fun s => s.remaining.getD s.capacity) :=
  ⟨_, createEvent_success_shape db name secs hn hne hv,
    mkSections_remaining_map 0 secs⟩

/-- Witness for C10 at a concrete input: a section with capacity 2 and a
supplied remaining of 7, outside the range the claim would require to be
checked, together with a section omitting remaining. -/
theorem createEvent_remaining_passthrough_witness :
    ∃ e, (createEvent db0
          ⟨some "E", some [⟨"A", 10, 2, some 7⟩, ⟨"B", 3, 4, none⟩]⟩).1
        = EventResponse.created 201 e ∧
      e.sections.map (fun t => t.remaining)
        = ([⟨"A", 10, 2, some 7⟩, ⟨"B", 3, 4, none⟩] : List SectionRequest).map
            (fun s => s.remaining.getD s.capacity) :=
  createEvent_remaining_passthrough db0 "E" [⟨"A", 10, 2, some 7⟩, ⟨"B", 3, 4, none⟩]
    (by decide) (by decide) (by decide)

end Onlybees
